import Mathlib

/-!
Shallow embedding of the `sigye-background` crate (background animation
engine of the rust-clock repository) and proofs about it.

Modelling conventions:
* Rust `f32` values are embedded as `ℚ`.  The claims settled here depend
  only on exact constants, comparisons and piecewise-linear arithmetic,
  never on floating-point rounding.
* Rust `u64`/`usize` values are embedded as `ℕ`; `wrapping_mul` and
  `wrapping_add` reduce modulo `2^64`.
* Transcendental functions (`sin`, `cos`, `sqrt`, `atan2`, `powf`) are
  abstracted as an explicit `FloatOps` parameter; no settled claim depends
  on their values.
* A Rust operation that can panic (integer `%`/`-` with a zero divisor or
  underflow) is embedded as an `Option`-valued function returning `none`
  exactly on the panicking inputs.
-/

namespace Sigye

/-- 2^64, the wrap-around modulus of Rust `u64`/`usize` arithmetic. -/
def U64 : ℕ := 18446744073709551616

/-- Rust `usize::wrapping_mul`. -/
def wmul (a b : ℕ) : ℕ := (a * b) % U64

/-- Rust `usize::wrapping_add`. -/
def wadd (a b : ℕ) : ℕ := (a + b) % U64

/-- Rust `f32 as u8`: truncate toward zero and saturate to `[0,255]`. -/
def toU8 (q : ℚ) : ℕ := if q ≤ 0 then 0 else min 255 (q.num.toNat / q.den)

/-- Rust `f32 as usize`: truncate toward zero and saturate below at `0`. -/
def toUsize (q : ℚ) : ℕ := if q ≤ 0 then 0 else q.num.toNat / q.den

/-- Rust `f32 as i16`: truncate toward zero and saturate to the i16 range. -/
def toI16 (q : ℚ) : ℤ := max (-32768) (min 32767 (Int.tdiv q.num q.den))

/-- Rust `f32::clamp(lo, hi)`. -/
def qclamp (x lo hi : ℚ) : ℚ := if x < lo then lo else if x > hi then hi else x

/-- Rust `usize::clamp(lo, hi)`. -/
def nclamp (x lo hi : ℕ) : ℕ := if x < lo then lo else if x > hi then hi else x

/-- An RGB triple as produced by `ratatui::style::Color::Rgb` (u8 channels). -/
structure Rgb where
  r : ℕ
  g : ℕ
  b : ℕ
deriving DecidableEq

/-- A rendered terminal cell: `Span::raw " "` (blank) or a styled glyph. -/
inductive Span where
  | blank
  | styled (ch : Char) (color : Rgb)
deriving DecidableEq

/-! ## color.rs -/

/-- Helper of `hsl_to_rgb` (source: `color.rs`, `hue_to_rgb`). -/
def hue_to_rgb (p q t : ℚ) : ℚ :=
  let t1 := if t < 0 then t + 1 else t
  let t2 := if t1 > 1 then t1 - 1 else t1
  if t2 < 1/6 then p + (q - p) * 6 * t2
  else if t2 < 1/2 then q
  else if t2 < 2/3 then p + (q - p) * (2/3 - t2) * 6
  else p

/-- HSL to RGB conversion (source: `color.rs`, `hsl_to_rgb`). -/
def hsl_to_rgb (h s l : ℚ) : Rgb :=
  if s = 0 then
    let v := toU8 (l * 255)
    ⟨v, v, v⟩
  else
    let q := if l < 1/2 then l * (1 + s) else l + s - l * s
    let p := 2 * l - q
    let h1 := h / 360
    ⟨toU8 (hue_to_rgb p q (h1 + 1/3) * 255),
     toU8 (hue_to_rgb p q h1 * 255),
     toU8 (hue_to_rgb p q (h1 - 1/3) * 255)⟩

/-- Hue computed by `resource_to_color` on the already-clamped value. -/
def resource_hue (value : ℚ) : ℚ := 240 - value * 240

/-- Saturation computed by `resource_to_color` on the clamped value. -/
def resource_saturation (value : ℚ) : ℚ := 6/10 + value * (4/10)

/-- Lightness computed by `resource_to_color` on the clamped value. -/
def resource_lightness (value : ℚ) : ℚ := 15/100 + value * (25/100)

/-- Resource value to color gradient (source: `color.rs`, `resource_to_color`). -/
def resource_to_color (value : ℚ) : Rgb :=
  let value := qclamp value 0 1
  hsl_to_rgb (resource_hue value) (resource_saturation value) (resource_lightness value)

/-! ## chars.rs -/

/-- Characters used for starfield background (source: `chars.rs`). -/
def STAR_CHARS : List Char := ['.', '*', '+', '·', '✦', '✧']

/-- Characters used for matrix rain (source: `chars.rs`). -/
def MATRIX_CHARS : List Char :=
  ['ア', 'イ', 'ウ', 'エ', 'オ', 'カ', 'キ', 'ク', 'ケ', 'コ', 'サ', 'シ', 'ス', 'セ', 'ソ',
   'タ', 'チ', 'ツ', 'テ', 'ト', '0', '1', '2', '3', '4', '5', '6', '7', '8', '9']

/-- Characters used for snowfall (source: `chars.rs`). -/
def SNOW_CHARS : List Char := ['*', '·', '•', '❄', '❅', '❆', '✦', '✧', '°']

/-- Characters used for rain drops (source: `chars.rs`). -/
def RAIN_CHARS : List Char := ['│', '|', '¦', '┃', '╏', '┊', '┆']

/-- Characters used for heavy storm rain (source: `chars.rs`). -/
def STORM_RAIN_CHARS : List Char := ['┃', '║', '│', '|', '/', '\\']

/-- Characters used for sun rays and shimmer (source: `chars.rs`). -/
def SUN_CHARS : List Char := ['·', '•', '*', '✦', '✧', '○', '◌']

/-- Characters used for wind streaks (source: `chars.rs`). -/
def WIND_CHARS : List Char := ['─', '-', '~', '∼', '≈', '━', '╌', '╍']

/-- Characters used for frost crystals (source: `chars.rs`). -/
def FROST_CHARS : List Char := ['·', '•', '*', '×', '✕', '✱', '░']

/-- Characters used for clouds (source: `chars.rs`). -/
def CLOUD_CHARS : List Char := ['░', '▒', '▓', '·', '•', '○', '◌', '◦']

/-- Characters used for fog (source: `chars.rs`). -/
def FOG_CHARS : List Char := ['·', '.', '\'', ':', '°', '∙', ',']

/-- Slice indexing.  Every index in the embedded code is reduced modulo the
list length beforehand, so the default is never returned where the source
indexes in bounds. -/
def listGet (l : List Char) (i : ℕ) : Char := l.getD i ' '

/-- Abstracted `f32` transcendental operations; the embedding is parametric
in them and no settled claim depends on their values. -/
structure FloatOps where
  sin : ℚ → ℚ
  cos : ℚ → ℚ
  sqrt : ℚ → ℚ
  atan2 : ℚ → ℚ → ℚ
  pow : ℚ → ℚ → ℚ
  pi : ℚ

/-- A trivial instantiation of `FloatOps`, used by concrete witnesses. -/
def ops0 : FloatOps := ⟨fun _ => 0, fun _ => 0, fun _ => 0, fun _ _ => 0, fun _ _ => 0, 0⟩

/-- Rust `f32` remainder `x % y` for the nonnegative operands occurring in
the embedded code (`x - y * trunc (x / y)`, equal to `x - y * ⌊x / y⌋`). -/
def fmod (x y : ℚ) : ℚ := x - y * ((x / y).num / (x / y).den : ℤ)

/-! ## animations/stateless.rs (starfield) -/

namespace stateless

/-- Starfield cell renderer (source: `stateless.rs`, `render_starfield_char`).
The twinkle period is `speed.star_twinkle_period_ms()` from the `sigye-core`
crate, which is not in the sources; modelled from the spec as an arbitrary
per-speed positive constant passed as the `period` argument. -/
def render_starfield_char (x y elapsed_ms period : ℕ) : Span :=
  let frame_num := elapsed_ms / period
  let seed := wadd (wadd (wmul x 31) (wmul y 17)) frame_num
  if seed % 100 < 3 then
    let ch := listGet STAR_CHARS (seed % STAR_CHARS.length)
    let brightness := seed % 3
    let color : Rgb :=
      if brightness = 0 then ⟨60, 60, 80⟩
      else if brightness = 1 then ⟨100, 100, 140⟩
      else ⟨150, 150, 200⟩
    Span.styled ch color
  else Span.blank

/-- Gradient wave cell renderer (source: `stateless.rs`,
`render_gradient_char`); `period` stands for
`speed.gradient_scroll_period_ms()`. -/
def render_gradient_char (ops : FloatOps) (x y width height elapsed_ms period : ℕ) : Span :=
  let time_phase := ((elapsed_ms % period : ℕ) : ℚ) / (period : ℚ)
  let x_norm := (x : ℚ) / ((max width 1 : ℕ) : ℚ)
  let y_norm := (y : ℚ) / ((max height 1 : ℕ) : ℚ)
  let wave := ops.sin ((x_norm + y_norm * (5/10) + time_phase) * 2 * ops.pi)
  let intensity := (wave + 1) / 2
  let ch :=
    if intensity < 25/100 then ' '
    else if intensity < 5/10 then '░'
    else if intensity < 75/100 then '▒'
    else '▓'
  let hue_offset := time_phase * 360
  let base_hue := fmod (x_norm * 60 + hue_offset) 360
  let color := hsl_to_rgb base_hue (7/10) (15/100 + intensity * (2/10))
  if ch = ' ' then Span.blank else Span.styled ch color

/-- Frost cell renderer (source: `stateless.rs`, `render_frost_char`);
`period` stands for `speed.frost_growth_period_ms()`. -/
def render_frost_char (ops : FloatOps) (x y width height elapsed_ms period : ℕ) : Span :=
  let x_f := (x : ℚ)
  let y_f := (y : ℚ)
  let w_f := (width : ℚ)
  let h_f := (height : ℚ)
  let edge_dist_x := min x_f (w_f - 1 - x_f)
  let edge_dist_y := min y_f (h_f - 1 - y_f)
  let edge_dist := min edge_dist_x (edge_dist_y * 2)
  let growth_phase := ((elapsed_ms % period : ℕ) : ℚ) / (period : ℚ) * ops.pi
  let growth_factor := ops.sin growth_phase * (3/10) + 7/10
  let max_frost_depth := (min w_f h_f / 3) * growth_factor
  if edge_dist > max_frost_depth then Span.blank
  else
    let seed := wadd (wmul x 31) (wmul y 17)
    let density_threshold := toUsize ((edge_dist / max_frost_depth) * 85)
    if seed % 100 > max (100 - density_threshold) 15 then Span.blank
    else
      let ch := listGet FROST_CHARS (seed % FROST_CHARS.length)
      let depth_ratio := edge_dist / max_frost_depth
      let base : Rgb :=
        if depth_ratio < 3/10 then ⟨200, 230, 255⟩
        else if depth_ratio < 6/10 then ⟨135, 206, 235⟩
        else ⟨70, 130, 180⟩
      let shimmer := ops.sin ((elapsed_ms : ℚ) / 500 + (seed : ℚ) * (1/10)) * (15/100) + 85/100
      Span.styled ch
        ⟨toU8 ((base.r : ℚ) * shimmer), toU8 ((base.g : ℚ) * shimmer),
         toU8 ((base.b : ℚ) * shimmer)⟩

/-- Aurora cell renderer (source: `stateless.rs`, `render_aurora_char`);
`period` stands for `speed.aurora_wave_period_ms()`. -/
def render_aurora_char (ops : FloatOps) (x y width height elapsed_ms period : ℕ) : Span :=
  let x_norm := (x : ℚ) / ((max width 1 : ℕ) : ℚ)
  let y_norm := (y : ℚ) / ((max height 1 : ℕ) : ℚ)
  let time_phase := ((elapsed_ms % period : ℕ) : ℚ) / (period : ℚ)
  let wave1 := (ops.sin (x_norm * 3 + time_phase * 2 * ops.pi) + 1) / 2
  let wave2 := (ops.sin (x_norm * 5 - time_phase * (3/2) * ops.pi + 1) + 1) / 2
  let wave3 := (ops.sin (x_norm * 2 + time_phase * ops.pi + 2) + 1) / 2
  let combined_wave := wave1 * (5/10) + wave2 * (3/10) + wave3 * (2/10)
  let vertical_factor := 1 - ops.pow y_norm (1/2)
  let intensity := combined_wave * vertical_factor
  if intensity < 15/100 then Span.blank
  else
    let chOpt : Option Char :=
      if intensity > 7/10 then some '▓'
      else if intensity > 5/10 then some '▒'
      else if intensity > 3/10 then some '░'
      else none
    match chOpt with
    | none => Span.blank
    | some ch =>
      let color_phase := fmod ((elapsed_ms : ℚ) / 10000 + x_norm * (5/10)) 1
      let rgb : ℕ × ℕ × ℕ :=
        if color_phase < 4/10 then
          let t := color_phase / (4/10)
          (50, toU8 (127 + 128 * t), toU8 (80 + 50 * t))
        else if color_phase < 7/10 then
          let t := (color_phase - 4/10) / (3/10)
          (toU8 (50 * (1 - t)), toU8 (255 - 100 * t), toU8 (150 + 105 * t))
        else
          let t := (color_phase - 7/10) / (3/10)
          (toU8 (80 + 80 * t), toU8 (155 - 50 * t), toU8 (255 - 30 * t))
      let dimming := 3/10 + vertical_factor * (7/10)
      Span.styled ch
        ⟨toU8 ((rgb.1 : ℚ) * dimming), toU8 ((rgb.2.1 : ℚ) * dimming),
         toU8 ((rgb.2.2 : ℚ) * dimming)⟩

end stateless

/-! ## animations/matrix.rs -/

/-- State for a single matrix rain column (source: `matrix.rs`). -/
structure MatrixColumn where
  y : ℚ
  speed : ℚ
  trail_length : ℕ
  char_seed : ℕ
deriving DecidableEq, Inhabited

namespace matrix

/-- Initialize matrix columns (source: `matrix.rs`, `init_columns`).
Returns `none` exactly when the Rust code panics: `height = 0` makes the
stagger computation a remainder by zero, evaluated as soon as the column
map body runs, i.e. when `width > 0`. -/
def init_columns (width height : ℕ) : Option (List MatrixColumn) :=
  if width = 0 then some []
  else if height = 0 then none
  else some ((List.range width).map fun x =>
    { y := -((((x * 7 + 3) % (height * 2)) : ℕ) : ℚ)
      speed := 3/10 + (((x * 13) % 10 : ℕ) : ℚ) / 15
      trail_length := 4 + (x * 11) % 8
      char_seed := x * 17 })

/-- Per-column body of `matrix::update` (source: `matrix.rs`, `update`). -/
def updateColumn (dy : ℚ) (height : ℕ) (col : MatrixColumn) : MatrixColumn :=
  let y1 := col.y + dy * col.speed
  if y1 > (height : ℚ) + (col.trail_length : ℚ) then
    { col with y := -(col.trail_length : ℚ), char_seed := wadd col.char_seed 1 }
  else { col with y := y1 }

/-- Update matrix column positions (source: `matrix.rs`, `update`).  The
fall speed is `speed.matrix_fall_speed()` from the missing `sigye-core`
crate, passed here as the `fall_speed` argument. -/
def update (columns : List MatrixColumn) (delta_ms height : ℕ)
    (fall_speed : ℚ) : List MatrixColumn :=
  let delta_y := (delta_ms : ℚ) / 50 * fall_speed
  columns.map (updateColumn delta_y height)

/-- Render a matrix rain character (source: `matrix.rs`, `render_char`). -/
def render_char (columns : List MatrixColumn) (x y : ℕ) : Span :=
  if columns.length ≤ x then Span.blank
  else
    let col := columns.getD x default
    let head_y := col.y
    let tail_y := head_y - (col.trail_length : ℚ)
    if (y : ℚ) ≥ tail_y ∧ (y : ℚ) ≤ head_y then
      let distance_from_head := head_y - (y : ℚ)
      let intensity := 1 - distance_from_head / (col.trail_length : ℚ)
      let char_idx := (wadd col.char_seed y) % MATRIX_CHARS.length
      let ch := listGet MATRIX_CHARS char_idx
      let color : Rgb :=
        if distance_from_head < 1 then ⟨200, 255, 200⟩
        else ⟨0, toU8 (80 + 120 * intensity), 0⟩
      Span.styled ch color
    else Span.blank

end matrix

/-! ## animations/weather.rs -/

/-- Rust-style `Option`-valued traversal of a list: the loop body `f` is run
left to right and the first panicking element aborts the whole call. -/
def optionMap {α β : Type} (f : α → Option β) : List α → Option (List β)
  | [] => some []
  | a :: l => (f a).bind fun b => (optionMap f l).map fun bs => b :: bs

/-- State for a single rain column (source: `weather.rs`). -/
structure RainColumn where
  y : ℚ
  speed : ℚ
  char_seed : ℕ
  intensity : ℕ
deriving DecidableEq, Inhabited

/-- State for a single snowfall column (source: `weather.rs`). -/
structure SnowColumn where
  y : ℚ
  speed : ℚ
  drift_phase : ℚ
  size : ℕ
  char_seed : ℕ
deriving DecidableEq, Inhabited

/-- State for storm lightning (source: `weather.rs`). -/
structure StormState where
  rain_columns : List RainColumn
  last_lightning_ms : ℕ
  lightning_duration_ms : ℕ
  next_lightning_interval : ℕ
  flash_intensity : ℚ
  lightning_seed : ℕ
deriving DecidableEq

/-- State for a single wind streak (source: `weather.rs`). -/
structure WindStreak where
  x : ℚ
  y : ℕ
  speed : ℚ
  length : ℕ
  char_seed : ℕ
deriving DecidableEq, Inhabited

namespace weather

/-- Initialize rain columns (source: `weather.rs`, `init_rain_columns`).
`none` exactly when the Rust code panics: `width > 0` and `height = 0`
makes the stagger computation a remainder by zero. -/
def init_rain_columns (width height init_seed : ℕ) : Option (List RainColumn) :=
  if width = 0 then some []
  else if height = 0 then none
  else some ((List.range width).map fun x =>
    let mixed := wadd (wmul x 29) init_seed
    { y := -((((wmul mixed 13) % (height * 2)) : ℕ) : ℚ)
      speed := 8/10 + (((wmul mixed 17) % 10 : ℕ) : ℚ) / 25
      char_seed := wmul mixed 23
      intensity := (wmul mixed 7) % 3 })

/-- Update rain column positions (source: `weather.rs`, `update_rain`).
`fall_speed` stands for `speed.rain_fall_speed()` from the missing
`sigye-core` crate. -/
def update_rain (columns : List RainColumn) (delta_ms height : ℕ)
    (fall_speed : ℚ) : List RainColumn :=
  let delta_y := (delta_ms : ℚ) / 40 * fall_speed
  columns.map fun col =>
    let y1 := col.y + delta_y * col.speed
    if y1 > (height : ℚ) + 1 then
      { col with y := -1, char_seed := wadd col.char_seed 1 }
    else { col with y := y1 }

/-- Render a rain character (source: `weather.rs`, `render_rain_char`). -/
def render_rain_char (columns : List RainColumn) (x y : ℕ) : Span :=
  if columns.length ≤ x then Span.blank
  else
    let col := columns.getD x default
    let distance := |(y : ℚ) - col.y|
    if distance < 6/10 then
      let ch := listGet RAIN_CHARS (col.char_seed % RAIN_CHARS.length)
      let color : Rgb :=
        if col.intensity = 0 then ⟨100, 120, 150⟩
        else if col.intensity = 1 then ⟨80, 100, 140⟩
        else ⟨60, 80, 120⟩
      Span.styled ch color
    else Span.blank

/-- Initialize snowfall columns (source: `weather.rs`, `init_snow_columns`).
`none` exactly when the Rust code panics (`width > 0`, `height = 0`). -/
def init_snow_columns (width height init_seed : ℕ) : Option (List SnowColumn) :=
  if width = 0 then some []
  else if height = 0 then none
  else some ((List.range width).map fun x =>
    let mixed := wadd (wmul x 31) init_seed
    { y := -((((wadd (wmul mixed 11) 7) % (height * 3)) : ℕ) : ℚ)
      speed := 2/10 + (((wmul mixed 17) % 10 : ℕ) : ℚ) / 20
      drift_phase := (((wmul mixed 23) % 100 : ℕ) : ℚ) / 100
      size := (wmul mixed 13) % 3
      char_seed := wmul mixed 19 })

/-- Update snowfall column positions (source: `weather.rs`, `update_snow`).
`fall_speed` stands for `speed.snow_fall_speed()`. -/
def update_snow (columns : List SnowColumn) (delta_ms height : ℕ)
    (fall_speed : ℚ) : List SnowColumn :=
  let delta_y := (delta_ms : ℚ) / 80 * fall_speed
  columns.map fun col =>
    let y1 := col.y + delta_y * col.speed
    if y1 > (height : ℚ) + 2 then
      { col with y := -2, char_seed := wadd col.char_seed 1 }
    else { col with y := y1 }

/-- Render a snowfall character (source: `weather.rs`, `render_snow_char`). -/
def render_snow_char (ops : FloatOps) (columns : List SnowColumn)
    (x y elapsed_ms : ℕ) : Span :=
  if columns.length ≤ x then Span.blank
  else
    let col := columns.getD x default
    let drift_period : ℚ := 3000
    let drift :=
      ops.sin (((elapsed_ms : ℚ) / drift_period + col.drift_phase) * 2 * ops.pi) * (3/2)
    let flake_y := col.y + drift * (1/10)
    let distance := |(y : ℚ) - flake_y|
    if distance < 8/10 then
      let char_idx :=
        if col.size = 0 then col.char_seed % 3
        else if col.size = 1 then 3 + col.char_seed % 3
        else 6 + col.char_seed % 3
      let ch := listGet SNOW_CHARS (char_idx % SNOW_CHARS.length)
      let color : Rgb :=
        if col.size = 0 then ⟨70, 100, 160⟩
        else if col.size = 1 then ⟨65, 105, 225⟩
        else ⟨30, 144, 255⟩
      Span.styled ch color
    else Span.blank

/-- Initialize storm state (source: `weather.rs`, `init_storm`). -/
def init_storm (width height init_seed : ℕ) : Option StormState :=
  (init_rain_columns width height init_seed).map fun rc =>
    { rain_columns := rc
      last_lightning_ms := 0
      lightning_duration_ms := 0
      next_lightning_interval := 2000 + init_seed % 3000
      flash_intensity := 0
      lightning_seed := init_seed }

/-- Update storm state (source: `weather.rs`, `update_storm`).
`min_interval`/`max_interval` stand for `speed.lightning_interval_ms()` from
the missing `sigye-core` crate; modelled from the spec as the bounds of the
speed-dependent interval range.  `none` models the panic of
`max_interval - min_interval` reaching zero in the Rust `%`. -/
def update_storm (state : StormState) (elapsed_ms delta_ms height : ℕ)
    (fall_speed : ℚ) (min_interval max_interval : ℕ) : Option StormState :=
  let rc := update_rain state.rain_columns delta_ms height fall_speed
  let time_since_flash := elapsed_ms - state.last_lightning_ms
  if 0 < state.lightning_duration_ms then
    if state.lightning_duration_ms < time_since_flash then
      if max_interval - min_interval = 0 then none
      else some { state with
        rain_columns := rc
        lightning_duration_ms := 0
        flash_intensity := 0
        next_lightning_interval := min_interval +
          (wmul state.lightning_seed 17) % (max_interval - min_interval)
        lightning_seed := wadd state.lightning_seed elapsed_ms }
    else
      let progress := (time_since_flash : ℚ) / (state.lightning_duration_ms : ℚ)
      some { state with rain_columns := rc, flash_intensity := max (1 - progress) 0 }
  else if state.next_lightning_interval < time_since_flash then
    some { state with
      rain_columns := rc
      last_lightning_ms := elapsed_ms
      lightning_duration_ms := 100 + state.lightning_seed % 150
      flash_intensity := 1 }
  else some { state with rain_columns := rc }

/-- Saturating u8 addition, as in `u8::saturating_add`. -/
def satAdd (a b : ℕ) : ℕ := min 255 (a + b)

/-- Render a storm character (source: `weather.rs`, `render_storm_char`). -/
def render_storm_char (state : StormState) (x y _elapsed_ms : ℕ) : Span :=
  if state.rain_columns.length ≤ x then Span.blank
  else
    let col := state.rain_columns.getD x default
    let distance := |(y : ℚ) - col.y|
    let trail_length : ℚ := 5/2
    if distance < trail_length ∧ (y : ℚ) ≥ col.y then
      let ch := listGet STORM_RAIN_CHARS (col.char_seed % STORM_RAIN_CHARS.length)
      let trail_pos := distance / trail_length
      let trail_fade := 1 - trail_pos * (6/10)
      if 0 < state.flash_intensity then
        let boost := toU8 (state.flash_intensity * 150 * trail_fade)
        Span.styled ch ⟨satAdd 70 boost, satAdd 65 (boost + 10), satAdd 100 (boost + 20)⟩
      else
        let fade := trail_fade * (7/10) + 3/10
        Span.styled ch ⟨toU8 (70 * fade), toU8 (65 * fade), toU8 (100 * fade)⟩
    else if 3/10 < state.flash_intensity then
      let seed := wadd (wmul x 17) (y * 31)
      if seed % 8 < 3 then
        let brightness := toU8 (state.flash_intensity * 80)
        Span.styled '·' ⟨brightness + 40, brightness + 50, brightness + 80⟩
      else Span.blank
    else Span.blank

/-- Initialize wind streaks (source: `weather.rs`, `init_wind_streaks`).
The streak count is always at least 10, so the per-streak body always runs:
`width = 0` or `height = 0` is a remainder by zero, hence `none`. -/
def init_wind_streaks (width height init_seed : ℕ) : Option (List WindStreak) :=
  let num_streaks := nclamp (width * height / 40) 10 200
  if width = 0 ∨ height = 0 then none
  else some ((List.range num_streaks).map fun i =>
    let mixed := wadd (wmul i 37) init_seed
    { x := -((((wmul mixed 19) % (width * 2)) : ℕ) : ℚ)
      y := (wmul mixed 23) % height
      speed := 5/10 + (((wmul mixed 13) % 10 : ℕ) : ℚ) / 10
      length := 3 + (wmul mixed 7) % 6
      char_seed := wmul mixed 31 })

/-- Per-streak body of `update_wind` (source: `weather.rs`, `update_wind`).
`none` models the remainder by zero when a streak wraps at `height = 0`. -/
def updateStreak (dx : ℚ) (width height : ℕ) (st : WindStreak) : Option WindStreak :=
  let x1 := st.x + dx * st.speed
  if x1 > (width : ℚ) + (st.length : ℚ) then
    if height = 0 then none
    else some { st with
      x := -(st.length : ℚ)
      y := (wmul st.char_seed 17) % height
      char_seed := wadd st.char_seed 1 }
  else some { st with x := x1 }

/-- Update wind streak positions (source: `weather.rs`, `update_wind`).
`wind_speed` stands for `speed.wind_streak_speed()`. -/
def update_wind (streaks : List WindStreak) (delta_ms width height : ℕ)
    (wind_speed : ℚ) : Option (List WindStreak) :=
  let delta_x := (delta_ms : ℚ) / 30 * wind_speed
  optionMap (updateStreak delta_x width height) streaks

/-- Render wind at a position (source: `weather.rs`, `render_wind_char`):
scan the streaks in order and return the first one covering the cell. -/
def render_wind_char (ops : FloatOps) : List WindStreak → ℕ → ℕ → ℕ → Span
  | [], _, _, _ => Span.blank
  | st :: rest, x, y, elapsed_ms =>
    if st.y ≠ y then render_wind_char ops rest x y elapsed_ms
    else
      let head_x := st.x
      let tail_x := head_x - (st.length : ℚ)
      if (x : ℚ) ≥ tail_x ∧ (x : ℚ) ≤ head_x then
        let distance_from_head := head_x - (x : ℚ)
        let intensity := 1 - distance_from_head / (st.length : ℚ)
        let ch := listGet WIND_CHARS ((wadd st.char_seed x) % WIND_CHARS.length)
        let base := 80 + toU8 (intensity * 60)
        let shimmer := toI16 (ops.sin ((elapsed_ms : ℚ) / 200 + (x : ℚ) * (5/10)) * 20)
        let r := (max 40 (min 180 ((base : ℤ) + shimmer))).toNat
        Span.styled ch ⟨r, base + 10, base + 20⟩
      else render_wind_char ops rest x y elapsed_ms

/-- Sunny cell renderer (source: `weather.rs`, `render_sunny_char`);
`period` stands for `speed.sun_shimmer_period_ms()`. -/
def render_sunny_char (ops : FloatOps) (x y width height elapsed_ms period : ℕ) : Span :=
  let x_f := (x : ℚ)
  let y_f := (y : ℚ)
  let w_f := ((max width 1 : ℕ) : ℚ)
  let h_f := ((max height 1 : ℕ) : ℚ)
  let sun_x := w_f * (85/100)
  let sun_y := h_f * (15/100)
  let dx := x_f - sun_x
  let dy := (y_f - sun_y) * 2
  let distance := ops.sqrt (dx * dx + dy * dy)
  let sun_radius := min w_f h_f * (8/100)
  if distance < sun_radius then
    let core_intensity := 1 - distance / sun_radius
    Span.styled '●' ⟨255, toU8 (200 + core_intensity * 55), 100⟩
  else
    let angle := ops.atan2 dy dx
    let shimmer_phase := ((elapsed_ms % period : ℕ) : ℚ) / (period : ℚ)
    let num_rays : ℚ := 12
    let ray_angle := ops.sin ((angle + shimmer_phase * 2 * ops.pi) * num_rays)
    let ray_intensity := |ray_angle|
    let max_ray_distance := max w_f h_f * (6/10)
    let distance_factor := 1 - min (distance / max_ray_distance) 1
    let combined_intensity := ray_intensity * distance_factor
    if (distance_factor > 5/100 ∧ ray_intensity > 6/10) ∧ combined_intensity > 3/10 then
      let char_idx := min (toUsize (combined_intensity * 5)) (SUN_CHARS.length - 1)
      Span.styled (listGet SUN_CHARS char_idx)
        ⟨255, toU8 (180 + combined_intensity * 50), toU8 (50 + combined_intensity * 30)⟩
    else
      let seed := wadd (wmul x 31) (y * 17)
      if seed % 150 < 2 then Span.styled (listGet SUN_CHARS (seed % 3)) ⟨200, 180, 80⟩
      else Span.blank

/-- Cloud density helper (source: `weather.rs`, `cloud_density`). -/
def cloud_density (ops : FloatOps) (x y frequency phase : ℚ) : ℚ :=
  let wave1 := ops.sin ((x * frequency + phase) * 2 * ops.pi)
  let wave2 := ops.cos ((y * frequency * (5/10) + phase + 1) * 2 * ops.pi)
  let wave3 := ops.sin (((x + y) * frequency * (3/10) + phase) * 2 * ops.pi)
  ((wave1 + wave2 + wave3) / 3 + 1) / 2

/-- Cloudy cell renderer (source: `weather.rs`, `render_cloudy_char`);
`period` stands for `speed.cloud_drift_period_ms()`. -/
def render_cloudy_char (ops : FloatOps) (x y width height elapsed_ms period : ℕ) : Span :=
  let x_norm := (x : ℚ) / ((max width 1 : ℕ) : ℚ)
  let y_norm := (y : ℚ) / ((max height 1 : ℕ) : ℚ)
  let drift_phase := ((elapsed_ms % period : ℕ) : ℚ) / (period : ℚ)
  let cloud1 := cloud_density ops (x_norm + drift_phase * (5/10)) y_norm 3 0
  let cloud2 := cloud_density ops (x_norm - drift_phase * (3/10)) y_norm 5 (3/10)
  let cloud3 := cloud_density ops (x_norm + drift_phase * (2/10)) y_norm 2 (7/10)
  let density := min (cloud1 * (5/10) + cloud2 * (3/10) + cloud3 * (2/10)) 1
  let vertical_factor := 1 - ops.pow y_norm (7/10)
  let final_density := density * vertical_factor
  if final_density < 2/10 then Span.blank
  else
    let ch :=
      if final_density > 7/10 then listGet CLOUD_CHARS 2
      else if final_density > 5/10 then listGet CLOUD_CHARS 1
      else if final_density > 3/10 then listGet CLOUD_CHARS 0
      else listGet CLOUD_CHARS 4
    let gray := toU8 (120 + final_density * 60)
    Span.styled ch ⟨gray, gray + 5, gray + 10⟩

/-- Fog noise helper (source: `weather.rs`, `fog_noise`). -/
def fog_noise (ops : FloatOps) (x y time : ℚ) : ℚ :=
  let wave1 := ops.sin ((x * (8/10) + time * (3/10)) * ops.pi)
  let wave2 := ops.cos ((y * (6/10) - time * (2/10)) * ops.pi)
  let wave3 := ops.sin (((x + y) * (4/10) + time * (15/100)) * ops.pi)
  let wave4 := ops.cos ((x * (12/10) - y * (5/10) + time * (25/100)) * ops.pi)
  (wave1 * (35/100) + wave2 * (25/100) + wave3 * (25/100) + wave4 * (15/100) + 1) / 2

/-- Foggy cell renderer (source: `weather.rs`, `render_foggy_char`);
`period` stands for `speed.fog_pulse_period_ms()`. -/
def render_foggy_char (ops : FloatOps) (x y width height elapsed_ms period : ℕ) : Span :=
  let w_f := ((max width 1 : ℕ) : ℚ)
  let h_f := ((max height 1 : ℕ) : ℚ)
  let x_norm := (x : ℚ) / w_f
  let y_norm := (y : ℚ) / h_f
  let time := ((elapsed_ms % (period * 4) : ℕ) : ℚ) / (period : ℚ)
  let noise := fog_noise ops (x_norm * 4) (y_norm * 3) time
  let vertical_factor := ops.pow y_norm (4/10) * (6/10) + 4/10
  let base_density := noise * vertical_factor
  let patch_noise := fog_noise ops (x_norm * 2 + 3/2) (y_norm * 2) (time * (7/10))
  let patch_factor : ℚ := if patch_noise > 55/100 then 12/10 else 7/10
  let final_density := min (base_density * patch_factor) 1
  if final_density < 35/100 then Span.blank
  else
    let seed := wadd (wmul x 31) (wmul y 17)
    let threshold := 35/100 + ((seed % 30 : ℕ) : ℚ) / 100
    if final_density < threshold then Span.blank
    else
      let char_idx :=
        if final_density > 7/10 then seed % 2
        else if final_density > 5/10 then 2 + seed % 2
        else 4 + seed % 3
      let ch := listGet FOG_CHARS (char_idx % FOG_CHARS.length)
      let intensity := min ((final_density - 35/100) / (65/100)) 1
      let gray := toU8 (100 + intensity * 55)
      Span.styled ch ⟨gray, gray + 8, gray + 20⟩

end weather

/-! ## animations/reactive.rs and the orchestrator (state.rs) -/

/-- Animation speed selector (enum `AnimationSpeed` of the `sigye-core`
crate; the crate itself is not under the sources, but its three variants
are fixed by the spec and by the literal `match`es in `reactive.rs`). -/
inductive AnimationSpeed where
  | slow
  | medium
  | fast
deriving DecidableEq

/-- System metrics snapshot (source: `system_metrics.rs`; the `last_update`
wall-clock instant is omitted as no renderer reads it). -/
structure SystemMetrics where
  cpu_usage : ℚ
  memory_usage : ℚ
  network_rx_rate : ℚ
  network_tx_rate : ℚ
  disk_read_rate : ℚ
  disk_write_rate : ℚ
  battery_level : Option ℚ
  battery_charging : Option Bool
deriving DecidableEq

/-- The all-zero metrics snapshot (`SystemMetrics::default()`). -/
def SystemMetrics.zero : SystemMetrics :=
  { cpu_usage := 0, memory_usage := 0, network_rx_rate := 0, network_tx_rate := 0
    disk_read_rate := 0, disk_write_rate := 0, battery_level := none
    battery_charging := none }

/-- Modelled from the spec: the numeric constants returned by the
`AnimationSpeed` methods of the missing `sigye-core` crate for the active
speed (per-effect period/speed constants and the lightning interval range).
The embedding is parametric in them. -/
structure SpeedParams where
  matrix_fall_speed : ℚ
  snow_fall_speed : ℚ
  rain_fall_speed : ℚ
  wind_streak_speed : ℚ
  lightning_min : ℕ
  lightning_max : ℕ
  star_twinkle_period_ms : ℕ
  gradient_scroll_period_ms : ℕ
  frost_growth_period_ms : ℕ
  aurora_wave_period_ms : ℕ
  sun_shimmer_period_ms : ℕ
  cloud_drift_period_ms : ℕ
  fog_pulse_period_ms : ℕ
  wave_period_ms : ℕ

/-- A concrete instantiation of `SpeedParams`, used by closed witnesses. -/
def sp0 : SpeedParams :=
  { matrix_fall_speed := 1, snow_fall_speed := 1, rain_fall_speed := 1
    wind_streak_speed := 1, lightning_min := 1000, lightning_max := 2000
    star_twinkle_period_ms := 1500, gradient_scroll_period_ms := 3000
    frost_growth_period_ms := 8000, aurora_wave_period_ms := 4000
    sun_shimmer_period_ms := 3000, cloud_drift_period_ms := 10000
    fog_pulse_period_ms := 6000, wave_period_ms := 3000 }

namespace reactive

/-- System pulse renderer (source: `reactive.rs`, `render_system_pulse`),
returning the full cell grid it paints. -/
def render_system_pulse (ops : FloatOps) (width height elapsed_ms : ℕ)
    (speed : AnimationSpeed) (m : SystemMetrics) : List (List Span) :=
  let w_f := (width : ℚ)
  let h_f := (height : ℚ)
  let cpu := m.cpu_usage
  let base_period : ℚ :=
    match speed with
    | .slow => 3000
    | .medium => 2000
    | .fast => 1000
  let period := base_period * (1 - cpu * (5/10))
  let phase := fmod (elapsed_ms : ℚ) period / period
  let pulse := ops.sin (phase * 2 * ops.pi) * (5/10) + 5/10
  let color := resource_to_color cpu
  (List.range height).map fun y =>
    (List.range width).map fun x =>
      let dx := (x : ℚ) - w_f / 2
      let dy := ((y : ℚ) - h_f / 2) * 2
      let dist := ops.sqrt (dx * dx + dy * dy)
      let max_dist := ops.sqrt (w_f * w_f / 4 + h_f * h_f)
      let normalized := dist / max_dist
      let intensity := (1 - normalized) * pulse * (3/10 + cpu * (7/10))
      if intensity > 5/100 then
        let ch :=
          if intensity > 6/10 then '█'
          else if intensity > 4/10 then '▓'
          else if intensity > 2/10 then '▒'
          else if intensity > 1/10 then '░'
          else '·'
        Span.styled ch color
      else Span.blank

/-- Resource wave renderer (source: `reactive.rs`, `render_resource_wave`);
`period` stands for `speed.wave_period_ms()`. -/
def render_resource_wave (ops : FloatOps) (width height elapsed_ms period : ℕ)
    (m : SystemMetrics) : List (List Span) :=
  let w_f := (width : ℚ)
  let h_f := (height : ℚ)
  let mem := m.memory_usage
  let amplitude := mem * (h_f / 3)
  let color := resource_to_color mem
  let time_phase := ((elapsed_ms % period : ℕ) : ℚ) / (period : ℚ)
  (List.range height).map fun y =>
    (List.range width).map fun x =>
      let x_norm := (x : ℚ) / w_f
      let wave_y := h_f / 2 + amplitude * ops.sin (x_norm * 4 + time_phase * 2 * ops.pi)
      let dist := |(y : ℚ) - wave_y|
      if dist < 3 then
        let ch := if dist < 1/2 then '█' else if dist < 3/2 then '▓' else '░'
        Span.styled ch color
      else Span.blank

/-- Data flow renderer (source: `reactive.rs`, `render_data_flow`). -/
def render_data_flow (width height elapsed_ms : ℕ) (speed : AnimationSpeed)
    (m : SystemMetrics) : List (List Span) :=
  let net_combined := (m.network_rx_rate + m.network_tx_rate) / 2
  let color := resource_to_color net_combined
  let base_speed : ℚ :=
    match speed with
    | .slow => 5/10
    | .medium => 1
    | .fast => 2
  let flow_speed := base_speed + net_combined * 2
  (List.range height).map fun y =>
    (List.range width).map fun x =>
      let seed := wadd (wmul x 17) (wmul y 31)
      let particle_phase := fmod ((elapsed_ms : ℚ) * flow_speed / 100 + (seed : ℚ)) 100
      let threshold := 95 - net_combined * 70
      if particle_phase > threshold ∧ seed % 15 < 2 then
        Span.styled (listGet ['·', '•', '○', '●'] (seed % 4)) color
      else Span.blank

/-- Heat map renderer (source: `reactive.rs`, `render_heat_map`);
`period` stands for `speed.gradient_scroll_period_ms()`. -/
def render_heat_map (ops : FloatOps) (width height elapsed_ms period : ℕ)
    (m : SystemMetrics) : List (List Span) :=
  let combined :=
    (m.cpu_usage + m.memory_usage + m.network_rx_rate + m.network_tx_rate) / 4
  let time_phase := ((elapsed_ms % period : ℕ) : ℚ) / (period : ℚ)
  (List.range height).map fun y =>
    (List.range width).map fun x =>
      let edge_dist := ((min (min (min x (width - 1 - x)) y) (height - 1 - y) : ℕ) : ℚ)
      let max_edge := ((min width height / 2 : ℕ) : ℚ)
      let edge_factor := 1 - min (edge_dist / max max_edge 1) 1
      let noise := ops.sin ((x : ℚ) * (1/10) + (y : ℚ) * (15/100) + time_phase * 10) * (3/10) + 7/10
      let heat := edge_factor * (2/10 + combined * (8/10)) * noise
      let color := resource_to_color heat
      if heat > 5/10 then Span.styled '█' color
      else if heat > 35/100 then Span.styled '▓' color
      else if heat > 2/10 then Span.styled '▒' color
      else if heat > 1/10 then Span.styled '░' color
      else Span.blank

end reactive

/-- Background style selector (enum `BackgroundStyle` of the `sigye-core`
crate; the variants are those dispatched by `state.rs`). -/
inductive BackgroundStyle where
  | noStyle
  | starfield
  | matrixRain
  | gradientWave
  | snowfall
  | frost
  | aurora
  | sunny
  | rainy
  | stormy
  | windy
  | cloudy
  | foggy
  | systemPulse
  | resourceWave
  | dataFlow
  | heatMap
deriving DecidableEq

/-- Modelled from the spec: `BackgroundStyle::is_reactive()` of the missing
`sigye-core` crate distinguishes the four metrics-driven styles. -/
def BackgroundStyle.is_reactive : BackgroundStyle → Bool
  | .systemPulse | .resourceWave | .dataFlow | .heatMap => true
  | _ => false

/-- Background animation state (source: `state.rs`, `BackgroundState`). -/
structure BackgroundState where
  matrix_columns : List MatrixColumn
  snow_columns : List SnowColumn
  rain_columns : List RainColumn
  storm_state : Option StormState
  wind_streaks : List WindStreak
  last_width : ℕ
  last_height : ℕ
  last_update_ms : ℕ
  init_seed : ℕ
deriving DecidableEq

/-- Fresh state (source: `state.rs`, `BackgroundState::new`; the wall-clock
seed captured there is passed in as a parameter). -/
def BackgroundState.mk0 (init_seed : ℕ) : BackgroundState :=
  { matrix_columns := [], snow_columns := [], rain_columns := []
    storm_state := none, wind_streaks := [], last_width := 0, last_height := 0
    last_update_ms := 0, init_seed := init_seed }

/-- Per-cell dispatch (source: `state.rs`, `BackgroundState::render_char`). -/
def BackgroundState.render_char (ops : FloatOps) (sp : SpeedParams)
    (s : BackgroundState) (x y width height : ℕ) (style : BackgroundStyle)
    (elapsed_ms : ℕ) : Span :=
  match style with
  | .noStyle => Span.blank
  | .starfield => stateless.render_starfield_char x y elapsed_ms sp.star_twinkle_period_ms
  | .matrixRain => matrix.render_char s.matrix_columns x y
  | .gradientWave =>
    stateless.render_gradient_char ops x y width height elapsed_ms sp.gradient_scroll_period_ms
  | .snowfall => weather.render_snow_char ops s.snow_columns x y elapsed_ms
  | .frost =>
    stateless.render_frost_char ops x y width height elapsed_ms sp.frost_growth_period_ms
  | .aurora =>
    stateless.render_aurora_char ops x y width height elapsed_ms sp.aurora_wave_period_ms
  | .sunny =>
    weather.render_sunny_char ops x y width height elapsed_ms sp.sun_shimmer_period_ms
  | .rainy => weather.render_rain_char s.rain_columns x y
  | .stormy =>
    match s.storm_state with
    | some storm => weather.render_storm_char storm x y elapsed_ms
    | none => Span.blank
  | .windy => weather.render_wind_char ops s.wind_streaks x y elapsed_ms
  | .cloudy =>
    weather.render_cloudy_char ops x y width height elapsed_ms sp.cloud_drift_period_ms
  | .foggy =>
    weather.render_foggy_char ops x y width height elapsed_ms sp.fog_pulse_period_ms
  | .systemPulse | .resourceWave | .dataFlow | .heatMap => Span.blank

/-- Reactive dispatch (source: `state.rs`, `BackgroundState::render_reactive`):
`some grid` is the painted frame, `none` the `_ => {}` arm that paints
nothing. -/
def BackgroundState.render_reactive (ops : FloatOps) (sp : SpeedParams)
    (style : BackgroundStyle) (elapsed_ms : ℕ) (speed : AnimationSpeed)
    (m : SystemMetrics) (width height : ℕ) : Option (List (List Span)) :=
  match style with
  | .systemPulse => some (reactive.render_system_pulse ops width height elapsed_ms speed m)
  | .resourceWave =>
    some (reactive.render_resource_wave ops width height elapsed_ms sp.wave_period_ms m)
  | .dataFlow => some (reactive.render_data_flow width height elapsed_ms speed m)
  | .heatMap =>
    some (reactive.render_heat_map ops width height elapsed_ms sp.gradient_scroll_period_ms m)
  | _ => none

/-- Frame render (source: `state.rs`, `BackgroundState::render`).  The
result is `none` where the Rust code panics; otherwise it carries the new
state and `some grid` when a widget is drawn, `none` when the call returns
without drawing. -/
def BackgroundState.render (ops : FloatOps) (sp : SpeedParams)
    (s : BackgroundState) (style : BackgroundStyle) (elapsed_ms : ℕ)
    (speed : AnimationSpeed) (metrics : Option SystemMetrics)
    (width height : ℕ) : Option (BackgroundState × Option (List (List Span))) :=
  if style = .noStyle then some (s, none)
  else if style.is_reactive then
    match metrics with
    | some m =>
      some (s, BackgroundState.render_reactive ops sp style elapsed_ms speed m width height)
    | none => some (s, none)
  else
    let dimensions_changed := width ≠ s.last_width ∨ height ≠ s.last_height
    (if style = .matrixRain ∧ (dimensions_changed ∨ s.matrix_columns = []) then
        matrix.init_columns width height
      else some s.matrix_columns).bind fun mc =>
    (if style = .snowfall ∧ (dimensions_changed ∨ s.snow_columns = []) then
        weather.init_snow_columns width height s.init_seed
      else some s.snow_columns).bind fun sc =>
    (if style = .rainy ∧ (dimensions_changed ∨ s.rain_columns = []) then
        weather.init_rain_columns width height s.init_seed
      else some s.rain_columns).bind fun rc =>
    (if style = .stormy ∧ (dimensions_changed ∨ s.storm_state = none) then
        (weather.init_storm width height s.init_seed).map some
      else some s.storm_state).bind fun ss =>
    (if style = .windy ∧ (dimensions_changed ∨ s.wind_streaks = []) then
        weather.init_wind_streaks width height s.init_seed
      else some s.wind_streaks).bind fun ws =>
    let lw := if dimensions_changed then width else s.last_width
    let lh := if dimensions_changed then height else s.last_height
    let delta_ms := elapsed_ms - s.last_update_ms
    let mc2 := if style = .matrixRain then matrix.update mc delta_ms height sp.matrix_fall_speed else mc
    let sc2 := if style = .snowfall then weather.update_snow sc delta_ms height sp.snow_fall_speed else sc
    let rc2 := if style = .rainy then weather.update_rain rc delta_ms height sp.rain_fall_speed else rc
    (if style = .stormy then
        match ss with
        | some storm =>
          (weather.update_storm storm elapsed_ms delta_ms height sp.rain_fall_speed
            sp.lightning_min sp.lightning_max).map some
        | none => some none
      else some ss).bind fun ss2 =>
    (if style = .windy then
        weather.update_wind ws delta_ms width height sp.wind_streak_speed
      else some ws).bind fun ws2 =>
    let s2 : BackgroundState :=
      { matrix_columns := mc2, snow_columns := sc2, rain_columns := rc2
        storm_state := ss2, wind_streaks := ws2, last_width := lw, last_height := lh
        last_update_ms := elapsed_ms, init_seed := s.init_seed }
    let grid := (List.range height).map fun y =>
      (List.range width).map fun x =>
        BackgroundState.render_char ops sp s2 x y width height style elapsed_ms
    some (s2, some grid)

/-! ## Storm state machine iteration (for the flash-cycle claim) -/

/-- Iterate `update_storm` from `init_storm` with consistent time steps:
step `n` happens at `elapsed_ms = n * dt` with `delta_ms = dt`. -/
def stormRun (width height init_seed dt : ℕ) (fall_speed : ℚ)
    (min_interval max_interval : ℕ) : ℕ → Option StormState
  | 0 => weather.init_storm width height init_seed
  | n + 1 =>
    (stormRun width height init_seed dt fall_speed min_interval max_interval n).bind
      fun s =>
        weather.update_storm s ((n + 1) * dt) dt height fall_speed min_interval max_interval

/-! ## Theorems -/

theorem toU8_le_255 (q : ℚ) : toU8 q ≤ 255 := by
  unfold toU8
  split
  · omega
  · exact min_le_left _ _

theorem ratNumToNat_div_den_eq (q : ℚ) (n : ℕ) (h1 : (n : ℚ) ≤ q)
    (h2 : q < n + 1) : q.num.toNat / q.den = n := by
  have hden : (0:ℚ) < (q.den : ℚ) := by
    have := q.den_pos
    exact_mod_cast this
  have hnum : (q.num : ℚ) = q * q.den := by
    have h := Rat.num_div_den q
    have h2 := congrArg (· * (q.den : ℚ)) h
    simp only [div_mul_cancel₀ _ (ne_of_gt hden)] at h2
    exact h2
  have hlo : (n * q.den : ℚ) ≤ (q.num : ℚ) := by
    rw [hnum]
    exact mul_le_mul_of_nonneg_right h1 (le_of_lt hden)
  have hhi : (q.num : ℚ) < ((n + 1) * q.den : ℚ) := by
    rw [hnum]
    exact mul_lt_mul_of_pos_right h2 hden
  have hlo' : (n : ℤ) * q.den ≤ q.num := by exact_mod_cast hlo
  have hhi' : q.num < ((n : ℤ) + 1) * q.den := by exact_mod_cast hhi
  have hnn : 0 ≤ q.num := le_trans (by positivity) hlo'
  have hlo2 : ((n * q.den : ℕ) : ℤ) ≤ q.num := by push_cast; exact hlo'
  have hhi2 : q.num < (((n + 1) * q.den : ℕ) : ℤ) := by push_cast; exact hhi'
  have hlo'' : n * q.den ≤ q.num.toNat := by omega
  have hhi'' : q.num.toNat < (n + 1) * q.den := by omega
  exact Nat.div_eq_of_lt_le hlo'' hhi''

theorem toU8_eq (q : ℚ) (n : ℕ) (h1 : (n : ℚ) ≤ q) (h2 : q < n + 1)
    (h3 : n ≤ 255) : toU8 q = n := by
  unfold toU8
  split_ifs with hle
  · have hq0 : q = 0 := le_antisymm hle (le_trans (by exact_mod_cast Nat.zero_le n) h1)
    subst hq0
    have hn' : (n : ℚ) ≤ 0 := h1
    have hn0 : n = 0 := by exact_mod_cast le_antisymm hn' (by positivity)
    omega
  · rw [ratNumToNat_div_den_eq q n h1 h2]
    omega

theorem qclamp_idem (v : ℚ) : qclamp (qclamp v 0 1) 0 1 = qclamp v 0 1 := by
  unfold qclamp
  split_ifs with h1 h2 h3 h4 h5 h6 <;> first | rfl | linarith

/-- Claim C6: `resource_to_color` first clamps its input to `[0,1]`, then maps
it to hue `240 - 240*value` (strictly decreasing from 240 at 0 to 0 at 1),
saturation `0.6 + 0.4*value` and lightness `0.15 + 0.25*value`, delegating to
`hsl_to_rgb`. -/
theorem claim_C6 :
    (∀ a b : ℚ, 0 ≤ a → a < b → b ≤ 1 → resource_hue b < resource_hue a) ∧
    resource_hue 0 = 240 ∧ resource_hue 1 = 0 ∧
    (∀ v : ℚ, resource_to_color v =
      hsl_to_rgb (resource_hue (qclamp v 0 1)) (resource_saturation (qclamp v 0 1))
        (resource_lightness (qclamp v 0 1))) ∧
    (∀ v : ℚ, resource_to_color v = resource_to_color (qclamp v 0 1)) := by
  refine ⟨?_, by norm_num [resource_hue], by norm_num [resource_hue], ?_, ?_⟩
  · intro a b _ hab _
    unfold resource_hue
    linarith
  · intro v
    rfl
  · intro v
    unfold resource_to_color
    rw [qclamp_idem]

/-- Witness for C6: hue is strictly decreasing across the 0.1 steps, e.g.
from value 0.1 to 0.2. -/
theorem claim_C6_witness : resource_hue (2/10) < resource_hue (1/10) :=
  claim_C6.1 (1/10) (2/10) (by norm_num) (by norm_num) (by norm_num)

/-- Claim C8: `hsl_to_rgb` returns channels in `[0,255]` for `h ∈ [0,360)`,
`s, l ∈ [0,1]`, and the zero-saturation case `hsl_to_rgb 0 0 0.5` yields the
gray `(127,127,127)`. -/
theorem claim_C8 :
    (∀ h s l : ℚ, 0 ≤ h → h < 360 → 0 ≤ s → s ≤ 1 → 0 ≤ l → l ≤ 1 →
      (hsl_to_rgb h s l).r ≤ 255 ∧ (hsl_to_rgb h s l).g ≤ 255 ∧
        (hsl_to_rgb h s l).b ≤ 255) ∧
    hsl_to_rgb 0 0 (1/2) = ⟨127, 127, 127⟩ := by
  constructor
  · intro h s l _ _ _ _ _ _
    unfold hsl_to_rgb
    split <;> exact ⟨toU8_le_255 _, toU8_le_255 _, toU8_le_255 _⟩
  · have hv : toU8 ((1/2 : ℚ) * 255) = 127 :=
      toU8_eq _ 127 (by norm_num) (by norm_num) (by norm_num)
    show hsl_to_rgb 0 0 (1/2) = ⟨127, 127, 127⟩
    unfold hsl_to_rgb
    rw [if_pos rfl]
    show (⟨toU8 ((1/2 : ℚ) * 255), toU8 ((1/2 : ℚ) * 255),
      toU8 ((1/2 : ℚ) * 255)⟩ : Rgb) = ⟨127, 127, 127⟩
    rw [hv]

/-- Witness for C8 at `h = 120`, `s = 1/2`, `l = 1/2`. -/
theorem claim_C8_witness :
    (hsl_to_rgb 120 (1/2) (1/2)).r ≤ 255 ∧ (hsl_to_rgb 120 (1/2) (1/2)).g ≤ 255 ∧
      (hsl_to_rgb 120 (1/2) (1/2)).b ≤ 255 :=
  claim_C8.1 120 (1/2) (1/2) (by norm_num) (by norm_num) (by norm_num) (by norm_num)
    (by norm_num) (by norm_num)

/-- Claim C7: a starfield cell `(0,0)` at `elapsed_ms = 0` has hash seed `0`,
`0 % 100 = 0 < 3`, so it renders a star glyph (not blank) with the dim tier
color `(60,60,80)`. -/
theorem claim_C7 (period : ℕ) (_hp : 0 < period) :
    stateless.render_starfield_char 0 0 0 period = Span.styled '.' ⟨60, 60, 80⟩ ∧
      stateless.render_starfield_char 0 0 0 period ≠ Span.blank := by
  have h : stateless.render_starfield_char 0 0 0 period =
      Span.styled '.' ⟨60, 60, 80⟩ := by
    unfold stateless.render_starfield_char
    rw [Nat.zero_div]
    rfl
  exact ⟨h, by rw [h]; intro hc; cases hc⟩

/-- Witness for C7 at a concrete twinkle period of 1500 ms. -/
theorem claim_C7_witness :
    stateless.render_starfield_char 0 0 0 1500 = Span.styled '.' ⟨60, 60, 80⟩ ∧
      stateless.render_starfield_char 0 0 0 1500 ≠ Span.blank :=
  claim_C7 1500 (by norm_num)

/-- Claim C4: a matrix column whose advanced position exceeds
`height + trail_length` is reset to `-trail_length`; in particular the
column `(y=24, speed=1, trail_length=5)` on a height-20 screen, advanced by
an effective delta of 10 (`delta_ms = 500` at unit fall speed), ends at
`y = -5`. -/
theorem claim_C4 :
    (∀ (col : MatrixColumn) (dy : ℚ) (height : ℕ),
      col.y + dy * col.speed > (height : ℚ) + (col.trail_length : ℚ) →
      (matrix.updateColumn dy height col).y = -(col.trail_length : ℚ)) ∧
    matrix.update [{ y := 24, speed := 1, trail_length := 5, char_seed := 0 }] 500 20 1 =
      [{ y := -5, speed := 1, trail_length := 5, char_seed := 1 }] := by
  constructor
  · intro col dy height h
    unfold matrix.updateColumn
    rw [if_pos h]
  · unfold matrix.update matrix.updateColumn
    rw [List.map_singleton]
    rw [if_pos (by norm_num)]
    simp [wadd, U64]

/-- Witness for C4: the reset rule applied at the concrete column of the
claim. -/
theorem claim_C4_witness :
    (matrix.updateColumn 10 20
      { y := 24, speed := 1, trail_length := 5, char_seed := 0 }).y = -((5 : ℕ) : ℚ) :=
  claim_C4.1 { y := 24, speed := 1, trail_length := 5, char_seed := 0 } 10 20
    (by norm_num)

theorem optionMap_length {α β : Type} (f : α → Option β) :
    ∀ l l', optionMap f l = some l' → l'.length = l.length := by
  intro l
  induction l with
  | nil =>
    intro l' h
    simp only [optionMap, Option.some.injEq] at h
    subst h
    rfl
  | cons a t ih =>
    intro l' h
    rcases hfa : f a with _ | b
    · rw [optionMap, hfa] at h
      simp at h
    · rw [optionMap, hfa] at h
      rcases hmt : optionMap f t with _ | bs
      · rw [hmt] at h
        simp at h
      · rw [hmt] at h
        simp only [Option.some_bind, Option.map_some', Option.some.injEq] at h
        subst h
        simp [ih bs hmt]

/-- Claim C5: every stateful animator vector keeps its defining length:
the matrix, snow and rain column vectors produced by initialization have
length `width`, the wind streak vector has length
`clamp(width*height/40, 10, 200)`, and every update preserves the length. -/
theorem claim_C5 :
    (∀ w h cols, matrix.init_columns w h = some cols → cols.length = w) ∧
    (∀ w h s cols, weather.init_snow_columns w h s = some cols → cols.length = w) ∧
    (∀ w h s cols, weather.init_rain_columns w h s = some cols → cols.length = w) ∧
    (∀ w h s st, weather.init_wind_streaks w h s = some st →
      st.length = nclamp (w * h / 40) 10 200) ∧
    (∀ cols d h fs, (matrix.update cols d h fs).length = cols.length) ∧
    (∀ cols d h fs, (weather.update_snow cols d h fs).length = cols.length) ∧
    (∀ cols d h fs, (weather.update_rain cols d h fs).length = cols.length) ∧
    (∀ st d w h ws st', weather.update_wind st d w h ws = some st' →
      st'.length = st.length) := by
  refine ⟨?_, ?_, ?_, ?_, ?_, ?_, ?_, ?_⟩
  · intro w h cols hinit
    unfold matrix.init_columns at hinit
    split_ifs at hinit with h1 h2 <;> cases hinit <;> simp [h1]
  · intro w h s cols hinit
    unfold weather.init_snow_columns at hinit
    split_ifs at hinit with h1 h2 <;> cases hinit <;> simp [h1]
  · intro w h s cols hinit
    unfold weather.init_rain_columns at hinit
    split_ifs at hinit with h1 h2 <;> cases hinit <;> simp [h1]
  · intro w h s st hinit
    unfold weather.init_wind_streaks at hinit
    split_ifs at hinit with h1
    cases hinit
    simp
  · intro cols d h fs
    simp [matrix.update]
  · intro cols d h fs
    simp [weather.update_snow]
  · intro cols d h fs
    simp [weather.update_rain]
  · intro st d w h ws st' hupd
    exact optionMap_length _ st st' hupd

/-- Witness for C5: the width-0 initialization and an empty wind update. -/
theorem claim_C5_witness :
    (([] : List MatrixColumn)).length = 0 ∧ (([] : List WindStreak)).length = 0 :=
  ⟨claim_C5.1 0 5 [] rfl, claim_C5.2.2.2.2.2.2.2 [] 5 10 10 1 [] rfl⟩

/-- Claim C10: the matrix, rain and snow cell renderers return a blank span
when the queried column index is at or past the end of the column vector,
and the wind renderer returns blank when no streak on the queried row
covers the queried x. -/
theorem claim_C10 :
    (∀ cols x y, cols.length ≤ x → matrix.render_char cols x y = Span.blank) ∧
    (∀ cols x y, cols.length ≤ x → weather.render_rain_char cols x y = Span.blank) ∧
    (∀ ops cols x y e, cols.length ≤ x →
      weather.render_snow_char ops cols x y e = Span.blank) ∧
    (∀ (ops : FloatOps) (streaks : List WindStreak) (x y e : ℕ),
      (∀ st ∈ streaks, st.y = y →
        ¬((x : ℚ) ≥ st.x - (st.length : ℚ) ∧ (x : ℚ) ≤ st.x)) →
      weather.render_wind_char ops streaks x y e = Span.blank) := by
  refine ⟨?_, ?_, ?_, ?_⟩
  · intro cols x y h
    unfold matrix.render_char
    rw [if_pos h]
  · intro cols x y h
    unfold weather.render_rain_char
    rw [if_pos h]
  · intro ops cols x y e h
    unfold weather.render_snow_char
    rw [if_pos h]
  · intro ops streaks x y e hcov
    induction streaks with
    | nil => rfl
    | cons st rest ih =>
      unfold weather.render_wind_char
      by_cases hy : st.y ≠ y
      · rw [if_pos hy]
        exact ih fun s hs => hcov s (List.mem_cons_of_mem st hs)
      · rw [if_neg hy]
        push_neg at hy
        rw [if_neg (hcov st (List.mem_cons_self st rest) hy)]
        exact ih fun s hs => hcov s (List.mem_cons_of_mem st hs)

/-- Claim C1 (evaluation at the failing input): a frame render with style
`MatrixRain` at terminal dimensions `width = 1`, `height = 0` panics — the
lazy `init_columns` computes `(x*7+3) % (height*2)`, a remainder by zero —
so the embedded render is `none` instead of producing a frame. -/
theorem claim_C1 :
    BackgroundState.render ops0 sp0 (BackgroundState.mk0 0) .matrixRain 100 .medium
      none 1 0 = none := by
  rfl

/-- Claim C3 (amended): when a reactive style is active and no metrics
snapshot is supplied, `BackgroundState::render` returns successfully but
draws nothing and leaves the state unchanged; no default metrics snapshot
is substituted. -/
theorem claim_C3 (ops : FloatOps) (sp : SpeedParams) (s : BackgroundState)
    (style : BackgroundStyle) (elapsed_ms : ℕ) (speed : AnimationSpeed)
    (width height : ℕ) (hr : style.is_reactive = true) :
    BackgroundState.render ops sp s style elapsed_ms speed none width height =
      some (s, none) := by
  have hns : style ≠ .noStyle := by
    intro h
    subst h
    exact absurd hr (by decide)
  unfold BackgroundState.render
  rw [if_neg hns, if_pos hr]

/-- Counterexample for C3 as stated: with style `SystemPulse` and no
metrics, the render call draws no frame at all (output `none`), instead of
substituting all-zero metrics and painting one. -/
theorem claim_C3_counterexample :
    BackgroundState.render ops0 sp0 (BackgroundState.mk0 0) .systemPulse 500 .medium
      none 10 10 = some (BackgroundState.mk0 0, none) := by
  rfl

/-- Witness for the amended C3 at a concrete reactive style. -/
theorem claim_C3_witness :
    BackgroundState.render ops0 sp0 (BackgroundState.mk0 3) .dataFlow 250 .fast
      none 4 6 = some (BackgroundState.mk0 3, none) :=
  claim_C3 ops0 sp0 (BackgroundState.mk0 3) .dataFlow 250 .fast 4 6 rfl

/-- Claim C9: rendering with style `None` or a reactive style leaves the
whole `BackgroundState` unchanged (animator vectors, storm state and
`last_update_ms`); a non-`None`, non-reactive frame sets `last_update_ms`
to its `elapsed_ms`; consequently a frame rendered right after a reactive
interlude behaves exactly as if the interlude had never happened, so its
delta spans the whole interlude. -/
theorem claim_C9 :
    (∀ (ops : FloatOps) (sp : SpeedParams) (s : BackgroundState) (e : ℕ)
      (speed : AnimationSpeed) (metrics : Option SystemMetrics) (w h : ℕ),
      BackgroundState.render ops sp s .noStyle e speed metrics w h = some (s, none)) ∧
    (∀ (ops : FloatOps) (sp : SpeedParams) (s : BackgroundState)
      (style : BackgroundStyle) (e : ℕ) (speed : AnimationSpeed)
      (metrics : Option SystemMetrics) (w h : ℕ), style.is_reactive = true →
      ∃ out, BackgroundState.render ops sp s style e speed metrics w h = some (s, out)) ∧
    (∀ (ops : FloatOps) (sp : SpeedParams) (s : BackgroundState)
      (style : BackgroundStyle) (e : ℕ) (speed : AnimationSpeed)
      (metrics : Option SystemMetrics) (w h : ℕ) (s' : BackgroundState)
      (out : Option (List (List Span))), style ≠ .noStyle → style.is_reactive = false →
      BackgroundState.render ops sp s style e speed metrics w h = some (s', out) →
      s'.last_update_ms = e) ∧
    (∀ (ops : FloatOps) (sp : SpeedParams) (s : BackgroundState)
      (rstyle : BackgroundStyle) (e1 : ℕ) (speed : AnimationSpeed)
      (m : Option SystemMetrics) (w h : ℕ) (s1 : BackgroundState)
      (o1 : Option (List (List Span))), rstyle.is_reactive = true →
      BackgroundState.render ops sp s rstyle e1 speed m w h = some (s1, o1) →
      ∀ (ops2 : FloatOps) (sp2 : SpeedParams) (style2 : BackgroundStyle) (e2 : ℕ)
        (speed2 : AnimationSpeed) (m2 : Option SystemMetrics) (w2 h2 : ℕ),
        BackgroundState.render ops2 sp2 s1 style2 e2 speed2 m2 w2 h2 =
          BackgroundState.render ops2 sp2 s style2 e2 speed2 m2 w2 h2) := by
  have hreact_state : ∀ (ops : FloatOps) (sp : SpeedParams) (s : BackgroundState)
      (style : BackgroundStyle) (e : ℕ) (speed : AnimationSpeed)
      (metrics : Option SystemMetrics) (w h : ℕ) (s1 : BackgroundState)
      (o1 : Option (List (List Span))), style.is_reactive = true →
      BackgroundState.render ops sp s style e speed metrics w h = some (s1, o1) →
      s1 = s := by
    intro ops sp s style e speed metrics w h s1 o1 hr hres
    have hns : style ≠ .noStyle := by
      intro hcon
      subst hcon
      exact absurd hr (by decide)
    unfold BackgroundState.render at hres
    rw [if_neg hns, if_pos hr] at hres
    cases metrics with
    | none =>
      simp only [Option.some.injEq, Prod.mk.injEq] at hres
      exact hres.1.symm
    | some m =>
      simp only [Option.some.injEq, Prod.mk.injEq] at hres
      exact hres.1.symm
  refine ⟨?_, ?_, ?_, ?_⟩
  · intro ops sp s e speed metrics w h
    unfold BackgroundState.render
    rw [if_pos rfl]
  · intro ops sp s style e speed metrics w h hr
    have hns : style ≠ .noStyle := by
      intro hcon
      subst hcon
      exact absurd hr (by decide)
    unfold BackgroundState.render
    rw [if_neg hns, if_pos hr]
    cases metrics with
    | none => exact ⟨none, rfl⟩
    | some m => exact ⟨_, rfl⟩
  · intro ops sp s style e speed metrics w h s' out hns hr hres
    simp only [BackgroundState.render] at hres
    rw [if_neg hns] at hres
    have hr' : ¬(style.is_reactive = true) := by simp [hr]
    rw [if_neg hr'] at hres
    obtain ⟨mc, -, hres⟩ := Option.bind_eq_some.mp hres
    obtain ⟨sc, -, hres⟩ := Option.bind_eq_some.mp hres
    obtain ⟨rc, -, hres⟩ := Option.bind_eq_some.mp hres
    obtain ⟨ss, -, hres⟩ := Option.bind_eq_some.mp hres
    obtain ⟨ws, -, hres⟩ := Option.bind_eq_some.mp hres
    obtain ⟨ss2, -, hres⟩ := Option.bind_eq_some.mp hres
    obtain ⟨ws2, -, hres⟩ := Option.bind_eq_some.mp hres
    simp only [Option.some.injEq, Prod.mk.injEq] at hres
    obtain ⟨hs', -⟩ := hres
    rw [← hs']
  · intro ops sp s rstyle e1 speed m w h s1 o1 hr hres ops2 sp2 style2 e2 speed2 m2 w2 h2
    rw [hreact_state ops sp s rstyle e1 speed m w h s1 o1 hr hres]

/-- Witness for C9: a reactive frame with metrics present leaves the state
unchanged, and a starfield frame at elapsed 42 stamps `last_update_ms = 42`. -/
theorem claim_C9_witness :
    (∃ out, BackgroundState.render ops0 sp0 (BackgroundState.mk0 1) .heatMap 99 .medium
      (some SystemMetrics.zero) 0 0 = some (BackgroundState.mk0 1, out)) ∧
    ({ matrix_columns := [], snow_columns := [], rain_columns := [], storm_state := none,
       wind_streaks := [], last_width := 0, last_height := 0, last_update_ms := 42,
       init_seed := 0 } : BackgroundState).last_update_ms = 42 :=
  ⟨claim_C9.2.1 ops0 sp0 (BackgroundState.mk0 1) .heatMap 99 .medium
      (some SystemMetrics.zero) 0 0 rfl,
   claim_C9.2.2.1 ops0 sp0 (BackgroundState.mk0 0) .starfield 42 .slow none 0 0
     { matrix_columns := [], snow_columns := [], rain_columns := [], storm_state := none,
       wind_streaks := [], last_width := 0, last_height := 0, last_update_ms := 42,
       init_seed := 0 } (some []) (by decide) (by decide) rfl⟩

theorem update_storm_cases (s : StormState) (e d h : ℕ) (fs : ℚ) (mi ma : ℕ)
    (s' : StormState) (hu : weather.update_storm s e d h fs mi ma = some s') :
    (0 < s.lightning_duration_ms ∧
      s.lightning_duration_ms < e - s.last_lightning_ms ∧
      s'.lightning_duration_ms = 0 ∧ s'.flash_intensity = 0 ∧
      s'.last_lightning_ms = s.last_lightning_ms) ∨
    (0 < s.lightning_duration_ms ∧
      ¬ s.lightning_duration_ms < e - s.last_lightning_ms ∧
      s'.lightning_duration_ms = s.lightning_duration_ms ∧
      s'.last_lightning_ms = s.last_lightning_ms ∧
      s'.flash_intensity =
        max (1 - ((e - s.last_lightning_ms : ℕ) : ℚ) / (s.lightning_duration_ms : ℚ)) 0) ∨
    (s.lightning_duration_ms = 0 ∧
      s.next_lightning_interval < e - s.last_lightning_ms ∧
      s'.lightning_duration_ms = 100 + s.lightning_seed % 150 ∧
      s'.flash_intensity = 1 ∧ s'.last_lightning_ms = e) ∨
    (s.lightning_duration_ms = 0 ∧
      ¬ s.next_lightning_interval < e - s.last_lightning_ms ∧
      s' = { s with rain_columns := weather.update_rain s.rain_columns d h fs }) := by
  simp only [weather.update_storm] at hu
  split_ifs at hu with hd hts hmi hti
  · cases hu
    exact Or.inl ⟨hd, hts, rfl, rfl, rfl⟩
  · cases hu
    exact Or.inr (Or.inl ⟨hd, hts, rfl, rfl, rfl⟩)
  · cases hu
    exact Or.inr (Or.inr (Or.inl ⟨Nat.eq_zero_of_not_pos hd, hti, rfl, rfl, rfl⟩))
  · cases hu
    exact Or.inr (Or.inr (Or.inr ⟨Nat.eq_zero_of_not_pos hd, hti, rfl⟩))

theorem storm_inv (w h seed dt : ℕ) (fs : ℚ) (mi ma : ℕ) :
    ∀ n s, stormRun w h seed dt fs mi ma n = some s →
      s.lightning_duration_ms = 0 → s.flash_intensity = 0 := by
  intro n
  induction n with
  | zero =>
    intro s h0 _
    simp only [stormRun, weather.init_storm] at h0
    obtain ⟨rc, -, hs⟩ := Option.map_eq_some'.mp h0
    subst hs
    rfl
  | succ n ih =>
    intro s' hrun hdur
    simp only [stormRun] at hrun
    obtain ⟨s, hs, hu⟩ := Option.bind_eq_some.mp hrun
    rcases update_storm_cases s _ _ _ _ _ _ s' hu with
      ⟨-, -, -, hf0, -⟩ | ⟨hd, -, hdeq, -, -⟩ | ⟨-, -, hd', -, -⟩ | ⟨hd0, -, hseq⟩
    · exact hf0
    · omega
    · omega
    · rw [hseq]
      exact ih s hs hd0

theorem storm_prefix (w h seed dt : ℕ) (fs : ℚ) (mi ma : ℕ) (s0 : StormState)
    (h0 : weather.init_storm w h seed = some s0) :
    ∀ n, n * dt ≤ 2000 + seed % 3000 →
      ∃ rc, stormRun w h seed dt fs mi ma n = some
        { rain_columns := rc, last_lightning_ms := 0, lightning_duration_ms := 0,
          next_lightning_interval := 2000 + seed % 3000, flash_intensity := 0,
          lightning_seed := seed } := by
  intro n
  induction n with
  | zero =>
    intro _
    simp only [weather.init_storm] at h0
    obtain ⟨rc, hrc, -⟩ := Option.map_eq_some'.mp h0
    refine ⟨rc, ?_⟩
    simp only [stormRun, weather.init_storm, hrc, Option.map_some']
  | succ n ih =>
    intro hle
    have hle' : n * dt ≤ 2000 + seed % 3000 :=
      le_trans (Nat.mul_le_mul_right dt (Nat.le_succ n)) hle
    obtain ⟨rc, hrun⟩ := ih hle'
    refine ⟨weather.update_rain rc dt h fs, ?_⟩
    simp only [stormRun, hrun, Option.some_bind]
    simp only [weather.update_storm]
    split_ifs <;> first | omega | rfl

theorem storm_eventually (w h seed dt : ℕ) (fs : ℚ) (mi ma : ℕ) (s0 : StormState)
    (h0 : weather.init_storm w h seed = some s0) (hdt : 0 < dt) :
    ∃ n s, stormRun w h seed dt fs mi ma n = some s ∧ 0 < s.flash_intensity := by
  obtain ⟨rc, hrun⟩ := storm_prefix w h seed dt fs mi ma s0 h0
    ((2000 + seed % 3000) / dt) (Nat.div_mul_le_self _ dt)
  have htrig : 2000 + seed % 3000 < ((2000 + seed % 3000) / dt + 1) * dt := by
    have h1 := Nat.div_add_mod (2000 + seed % 3000) dt
    have h2 := Nat.mod_lt (2000 + seed % 3000) hdt
    calc 2000 + seed % 3000
        = dt * ((2000 + seed % 3000) / dt) + (2000 + seed % 3000) % dt := h1.symm
      _ < dt * ((2000 + seed % 3000) / dt) + dt := by omega
      _ = ((2000 + seed % 3000) / dt + 1) * dt := by ring
  refine ⟨(2000 + seed % 3000) / dt + 1, ?_⟩
  simp only [stormRun, hrun, Option.some_bind]
  simp only [weather.update_storm]
  split_ifs <;> first | omega | exact ⟨_, rfl, one_pos⟩

theorem storm_flash_lb (w h seed dt : ℕ) (fs : ℚ) (mi ma : ℕ) :
    ∀ n s, stormRun w h seed dt fs mi ma n = some s →
      0 < s.lightning_duration_ms →
      max (1 - ((n * dt - s.last_lightning_ms : ℕ) : ℚ) /
        (s.lightning_duration_ms : ℚ)) 0 ≤ s.flash_intensity := by
  intro n
  cases n with
  | zero =>
    intro s h0 hdur
    simp only [stormRun, weather.init_storm] at h0
    obtain ⟨rc, -, hs⟩ := Option.map_eq_some'.mp h0
    subst hs
    simp at hdur
  | succ n =>
    intro s' hrun hdur
    simp only [stormRun] at hrun
    obtain ⟨s, hs, hu⟩ := Option.bind_eq_some.mp hrun
    rcases update_storm_cases s _ _ _ _ _ _ s' hu with
      ⟨-, -, hd0, -, -⟩ | ⟨hd, -, hdeq, hleq, hfeq⟩ |
      ⟨-, -, hd', hf', hl'⟩ | ⟨hd0, -, hseq⟩
    · omega
    · rw [hfeq, hdeq, hleq]
    · rw [hf', hl']
      simp
    · rw [hseq] at hdur
      simp only at hdur
      omega

/-- Claim C2: started from `init_storm` with any fixed seed and advanced by
`update_storm` with consistent increasing time steps (`elapsed = n*dt`,
`delta = dt`), (1) some step eventually has `flash_intensity > 0`;
(2) whenever no flash is in progress the intensity is exactly 0; (3) a flash
is only ever triggered from such a zero-intensity state, and the trigger
sets `flash_intensity = 1` and draws the duration in `[100, 250)` ms;
(4) within a flash the intensity is non-increasing (decays).  Hence two
flashes never overlap. -/
theorem claim_C2 (w h seed dt : ℕ) (fs : ℚ) (mi ma : ℕ) (s0 : StormState)
    (h0 : weather.init_storm w h seed = some s0) (hdt : 0 < dt) :
    (∃ n s, stormRun w h seed dt fs mi ma n = some s ∧ 0 < s.flash_intensity) ∧
    (∀ n s, stormRun w h seed dt fs mi ma n = some s →
      s.lightning_duration_ms = 0 → s.flash_intensity = 0) ∧
    (∀ n s s', stormRun w h seed dt fs mi ma n = some s →
      stormRun w h seed dt fs mi ma (n + 1) = some s' →
      s.lightning_duration_ms = 0 → 0 < s'.lightning_duration_ms →
      s.flash_intensity = 0 ∧ s'.flash_intensity = 1 ∧
        100 ≤ s'.lightning_duration_ms ∧ s'.lightning_duration_ms < 250) ∧
    (∀ n s s', stormRun w h seed dt fs mi ma n = some s →
      stormRun w h seed dt fs mi ma (n + 1) = some s' →
      0 < s.lightning_duration_ms →
      s'.lightning_duration_ms = s.lightning_duration_ms →
      s'.flash_intensity ≤ s.flash_intensity) := by
  refine ⟨storm_eventually w h seed dt fs mi ma s0 h0 hdt,
    storm_inv w h seed dt fs mi ma, ?_, ?_⟩
  · intro n s s' hn hn1 hd0 hd'
    simp only [stormRun, hn, Option.some_bind] at hn1
    rcases update_storm_cases s _ _ _ _ _ _ s' hn1 with
      ⟨hd, -, -, -, -⟩ | ⟨hd, -, -, -, -⟩ | ⟨-, -, hdur', hf', -⟩ | ⟨-, -, hseq⟩
    · omega
    · omega
    · have hm' : s.lightning_seed % 150 < 150 := Nat.mod_lt _ (by norm_num)
      exact ⟨storm_inv w h seed dt fs mi ma n s hn hd0, hf', by omega, by omega⟩
    · rw [hseq] at hd'
      simp only at hd'
      omega
  · intro n s s' hn hn1 hdpos hdeq
    simp only [stormRun, hn, Option.some_bind] at hn1
    rcases update_storm_cases s _ _ _ _ _ _ s' hn1 with
      ⟨-, -, hd0, -, -⟩ | ⟨hd, -, hdeq2, hleq, hfeq⟩ | ⟨hd0, -, -, -, -⟩ | ⟨hd0, -, -⟩
    · omega
    · have hlb := storm_flash_lb w h seed dt fs mi ma n s hn hdpos
      have hdq : (0:ℚ) < (s.lightning_duration_ms : ℚ) := by exact_mod_cast hdpos
      have htsf : ((n * dt - s.last_lightning_ms : ℕ) : ℚ) ≤
          (((n + 1) * dt - s.last_lightning_ms : ℕ) : ℚ) := by
        have : n * dt - s.last_lightning_ms ≤ (n + 1) * dt - s.last_lightning_ms :=
          Nat.sub_le_sub_right (Nat.mul_le_mul_right dt (Nat.le_succ n)) _
        exact_mod_cast this
      have hdivle : ((n * dt - s.last_lightning_ms : ℕ) : ℚ) / (s.lightning_duration_ms : ℚ) ≤
          (((n + 1) * dt - s.last_lightning_ms : ℕ) : ℚ) / (s.lightning_duration_ms : ℚ) := by
        gcongr
      rw [hfeq]
      refine le_trans (max_le_max (sub_le_sub_left hdivle 1) le_rfl) hlb
    · omega
    · omega

/-- Witness for C2 on the concrete storm `init_storm 0 0 7` (seed 7) with
1000 ms steps: a flash eventually fires. -/
theorem claim_C2_witness :
    ∃ n s, stormRun 0 0 7 1000 1 0 1 n = some s ∧ 0 < s.flash_intensity :=
  (claim_C2 0 0 7 1000 1 0 1
    { rain_columns := [], last_lightning_ms := 0, lightning_duration_ms := 0,
      next_lightning_interval := 2007, flash_intensity := 0, lightning_seed := 7 }
    (by rfl) (by norm_num)).1

/-- Witness for C10: an empty matrix vector and a single off-row wind
streak both render blank. -/
theorem claim_C10_witness :
    matrix.render_char [] 0 0 = Span.blank ∧
    weather.render_wind_char ops0
      [{ x := 5, y := 2, speed := 1, length := 3, char_seed := 7 }] 0 0 0 = Span.blank :=
  ⟨claim_C10.1 [] 0 0 (by simp),
   claim_C10.2.2.2 ops0 [{ x := 5, y := 2, speed := 1, length := 3, char_seed := 7 }] 0 0 0
     (by
      intro st hst hy
      simp only [List.mem_singleton] at hst
      subst hst
      simp at hy)⟩

end Sigye
